import Mathlib

/-
Verification of the Cinder-FFmpeg MovieGl playback core (src/src/CinderFFmpeg.cpp).

The file shallowly embeds MovieGl's tick function `update()`, its transport
operations (play/stop/pause/resume/seekToTime/setLoop), `checkNewFrame()`,
`getTexture()`, the plane-texture (re)allocation logic, and the numeric
color-conversion law of the YUV fragment program.  Timestamps and clock
values are modelled as exact rationals.  The external collaborators that the
repository only uses through their interfaces (the MovieDecoder, the OpenAL
AudioRenderer and the cinder Timer) are modelled from the spec's interface
description; every MovieGl member function is translated statement by
statement from the source.
-/

namespace CinderFFmpeg

/-- Decoded video frame: a timestamp (the clock value the decoder reports
once the frame is decoded) together with its dimensions and the line strides
of the three planes, exactly the getters MovieGl reads
(getWidth/getHeight/getYLineSize/getULineSize/getVLineSize). -/
structure VideoFrame where
  pts : ℚ
  width : ℕ
  height : ℕ
  yLineSize : ℕ
  uLineSize : ℕ
  vLineSize : ℕ
deriving DecidableEq, Repr

/-- Modelled from the spec: the external MovieDecoder collaborator (§3, §6 of
the spec; its implementation is not part of this repository).  It owns the
decode position: a queue of pending video frames, a count of pending audio
frames (their content is irrelevant to MovieGl, which either forwards or
discards them), and the decoder video clock that `getVideoClock()` reports,
which the spec reads as the timestamp of the upcoming video frame and which
advances to a frame's own timestamp when that frame is decoded. -/
structure MovieDecoder where
  initialized : Bool
  hasAudioStream : Bool
  audioFrames : ℕ
  videoQueue : List VideoFrame
  videoClock : ℚ
  fps : ℚ
  playing : Bool
  done : Bool
  frameWidth : ℕ
  frameHeight : ℕ
  duration : ℚ
  numFrames : ℕ
  looping : Bool
deriving DecidableEq, Repr

/-- Modelled from the spec: `decodeAudioFrame` pulls one pending audio frame;
it fails (returns none) exactly when no frame is currently available. -/
def MovieDecoder.decodeAudioFrame (d : MovieDecoder) : Option MovieDecoder :=
  match d.audioFrames with
  | 0 => none
  | n + 1 => some { d with audioFrames := n }

/-- Modelled from the spec: `decodeVideoFrame` pulls the next pending video
frame, advancing the decoder video clock to that frame's timestamp; it fails
exactly when no frame is currently available. -/
def MovieDecoder.decodeVideoFrame (d : MovieDecoder) : Option (MovieDecoder × VideoFrame) :=
  match d.videoQueue with
  | [] => none
  | f :: rest => some ({ d with videoQueue := rest, videoClock := f.pts }, f)

/-- Modelled from the spec: transport command `start`. -/
def MovieDecoder.start (d : MovieDecoder) : MovieDecoder :=
  { d with playing := true }

/-- Modelled from the spec: transport command `stop`. -/
def MovieDecoder.stop (d : MovieDecoder) : MovieDecoder :=
  { d with playing := false }

/-- Modelled from the spec: transport command `pause`. -/
def MovieDecoder.pause (d : MovieDecoder) : MovieDecoder :=
  { d with playing := false }

/-- Modelled from the spec: transport command `resume`. -/
def MovieDecoder.resume (d : MovieDecoder) : MovieDecoder :=
  { d with playing := true }

/-- Modelled from the spec: transport command `seekToTime`, repositioning the
decode position (and hence the reported video clock) to the target time. -/
def MovieDecoder.seekToTime (t : ℚ) (d : MovieDecoder) : MovieDecoder :=
  { d with videoClock := t }

/-- Modelled from the spec: transport command `loop(flag)`. -/
def MovieDecoder.setLoopFlag (b : Bool) (d : MovieDecoder) : MovieDecoder :=
  { d with looping := b }

/-- Modelled from the spec: the external OpenAL AudioRenderer collaborator
(§6): a bounded frame buffer together with the consumed-playback position
that `getCurrentPts()` reports (advanced externally as audio renders). -/
structure AudioRenderer where
  cap : ℕ
  buffered : ℕ
  currentPts : ℚ
  playing : Bool
deriving DecidableEq, Repr

/-- Modelled from the spec: the renderer reports buffer space while its
queue is below capacity. -/
def AudioRenderer.hasBufferSpace (a : AudioRenderer) : Bool :=
  a.buffered < a.cap

/-- Modelled from the spec: queue one pulled audio frame. -/
def AudioRenderer.queueFrame (a : AudioRenderer) : AudioRenderer :=
  { a with buffered := a.buffered + 1 }

/-- Modelled from the spec: `flushBuffers` commits queued frames to the
device; the consumed position itself is maintained by the environment, so
the observable renderer state is unchanged. -/
def AudioRenderer.flushBuffers (a : AudioRenderer) : AudioRenderer := a

/-- Modelled from the spec: `clearBuffers` drops all queued frames. -/
def AudioRenderer.clearBuffers (a : AudioRenderer) : AudioRenderer :=
  { a with buffered := 0 }

/-- Modelled from the spec: resume audio playback. -/
def AudioRenderer.play (a : AudioRenderer) : AudioRenderer :=
  { a with playing := true }

/-- Modelled from the spec: pause audio playback. -/
def AudioRenderer.pause (a : AudioRenderer) : AudioRenderer :=
  { a with playing := false }

/-- Modelled from the spec: stop audio playback. -/
def AudioRenderer.stop (a : AudioRenderer) : AudioRenderer :=
  { a with playing := false }

/-- Modelled from the spec: the cinder wall-clock Timer (mUpdateTimer).  A
running timer reports `offset + (now - startWall)`; a stopped timer reports
the value frozen at the stop.  Wall time is threaded explicitly as a `now`
argument to the operations that read or restart the timer. -/
structure Timer where
  running : Bool
  offset : ℚ
  startWall : ℚ
  frozen : ℚ
deriving DecidableEq, Repr

/-- Modelled from the spec: `Timer::start(offset)` re-bases the timer so that
it reads `offset` at the current wall time. -/
def Timer.startAt (off now : ℚ) : Timer :=
  { running := true, offset := off, startWall := now, frozen := 0 }

/-- Modelled from the spec: `Timer::getSeconds()`. -/
def Timer.getSeconds (t : Timer) (now : ℚ) : ℚ :=
  if t.running then t.offset + (now - t.startWall) else t.frozen

/-- Modelled from the spec: `Timer::stop()` freezes the current reading. -/
def Timer.stopAt (now : ℚ) (t : Timer) : Timer :=
  { running := false, offset := t.offset, startWall := t.startWall,
    frozen := t.getSeconds now }

/-- GPU texture, identified by its allocation size (width, height). -/
structure Texture2d where
  width : ℕ
  height : ℕ
deriving DecidableEq, Repr

/-- Output color texture of a tick: the color attachment of the offscreen
target after rendering the accepted frame. -/
structure OutputTexture where
  frame : VideoFrame
deriving DecidableEq, Repr

/-- Failure of a tick in the embedding: update() dereferences the null
shader program (mShader->uniform at line 143) when shader compilation had
failed at construction. -/
inductive UpdateError where
  | nullShaderDeref
deriving DecidableEq, Repr

/-- State of a MovieGl object: the decoder, the optional audio renderer
(absent when constructed with playAudio = false or the stream has no audio),
the wall-clock timer, the cached frame dimensions mWidth/mHeight, the three
plane textures, the offscreen target, the output texture, and whether the
color-conversion shader compiled (mShader non-null). -/
structure MovieGl where
  dec : MovieDecoder
  audio : Option AudioRenderer
  timer : Timer
  width : ℕ
  height : ℕ
  duration : ℚ
  yPlane : Option Texture2d
  uPlane : Option Texture2d
  vPlane : Option Texture2d
  fbo : Option Texture2d
  texture : Option OutputTexture
  shader : Bool
deriving DecidableEq, Repr

/-- Audio drain loop of update(), lines 50-56: while the renderer has buffer
space, pull an audio frame and queue it; stop on the first failed pull.  The
fuel is the free buffer space, which bounds the loop since each queued frame
consumes one slot. -/
def audioDrainLoop : ℕ → MovieDecoder → AudioRenderer → MovieDecoder × AudioRenderer
  | 0, d, a => (d, a)
  | fuel + 1, d, a =>
    if a.hasBufferSpace then
      match d.decodeAudioFrame with
      | some d2 => audioDrainLoop fuel d2 a.queueFrame
      | none => (d, a)
    else (d, a)

/-- Discard loop of update(), lines 64-66: with no audio renderer but an
audio stream present, pull audio frames and discard them until a pull
fails.  The fuel is the number of pending frames, which the loop exhausts. -/
def discardAudio : ℕ → MovieDecoder → MovieDecoder
  | 0, d => d
  | fuel + 1, d =>
    match d.decodeAudioFrame with
    | some d2 => discardAudio fuel d2
    | none => d

/-- Audio phase of update(), lines 47-69: with an audio renderer, drain into
it, flush, and take the renderer's consumed position as currentPts; without
one, discard pending audio frames when the stream has audio, and take the
wall-clock timer's seconds as currentPts. -/
def audioPhase (now : ℚ) (m : MovieGl) : MovieGl × ℚ :=
  match m.audio with
  | some a =>
    let p := audioDrainLoop (a.cap - a.buffered) m.dec a
    let a3 := p.2.flushBuffers
    ({ m with dec := p.1, audio := some a3 }, a3.currentPts)
  | none =>
    let d2 := if m.dec.hasAudioStream then discardAudio m.dec.audioFrames m.dec else m.dec
    ({ m with dec := d2 }, m.timer.getSeconds now)

/-- State of the video drain loop of update(), lines 72-92: the decoder, the
accepted frame (`hasVideo` together with the local `videoFrame` variable: a
frame is stored exactly when hasVideo is set), the local `currentVideoClock`,
the pending wall-clock re-base from the loop-wrap branch, and counts of
skipped frames and loop-body iterations. -/
structure DrainState where
  dec : MovieDecoder
  accepted : Option VideoFrame
  currentVideoClock : ℚ
  rebase : Option ℚ
  skips : ℕ
  iters : ℕ
deriving DecidableEq, Repr

/-- Admission bias of line 78: `hasVideo ? 0. : frameDuration * 0.5`, the
constant 0.5 written as the fraction 1 / 2. -/
def admitBias (accepted : Option VideoFrame) (frameDuration : ℚ) : ℚ :=
  if accepted.isSome then 0 else frameDuration * (1 / 2)

/-- Video drain loop of update(), lines 78-92: while the decoder video clock
is below `currentPts + admitBias` and the iteration counter has not passed
100 (the fuel mirrors `count++ < 100`), pull one frame; stop on a failed
pull; on a backward clock jump re-base the wall clock to the new clock and
stop immediately, keeping the frame; otherwise record the new clock and
continue. -/
def videoDrainLoop (currentPts frameDuration : ℚ) : ℕ → DrainState → DrainState
  | 0, s => s
  | fuel + 1, s =>
    if s.dec.videoClock < currentPts + admitBias s.accepted frameDuration then
      match s.dec.decodeVideoFrame with
      | some (d, f) =>
        let skips := if s.accepted.isSome then s.skips + 1 else s.skips
        if s.currentVideoClock > d.videoClock then
          { dec := d, accepted := some f, currentVideoClock := s.currentVideoClock,
            rebase := some d.videoClock, skips := skips, iters := s.iters + 1 }
        else
          videoDrainLoop currentPts frameDuration fuel
            { dec := d, accepted := some f, currentVideoClock := d.videoClock,
              rebase := s.rebase, skips := skips, iters := s.iters + 1 }
      | none => s
    else s

/-- Initial drain state of lines 72-77: no frame accepted, currentVideoClock
seeded from the decoder video clock, no pending re-base, counter at zero. -/
def initDrainState (d : MovieDecoder) : DrainState :=
  { dec := d, accepted := none, currentVideoClock := d.videoClock,
    rebase := none, skips := 0, iters := 0 }

/-- The full video drain of one tick: frameDuration = 1 / framesPerSecond
(line 77), cap of 100 iterations (line 78). -/
def updateDrain (currentPts : ℚ) (d : MovieDecoder) : DrainState :=
  videoDrainLoop currentPts (1 / d.fps) 100 (initDrainState d)

/-- Reallocation trigger of line 96: any plane texture or the offscreen
target absent, or the frame's height or width differing from the cached
mHeight/mWidth. -/
def needsRealloc (f : VideoFrame) (m : MovieGl) : Bool :=
  m.yPlane.isNone || m.uPlane.isNone || m.vPlane.isNone || m.fbo.isNone ||
    f.height != m.height || f.width != m.width

/-- Plane-texture and offscreen-target (re)allocation of lines 96-114: when
triggered, cache the frame dimensions and create the Y plane at
(yLineSize, height), the U and V planes at (lineSize, height / 2), and the
offscreen target at (width, height); otherwise leave everything as is. -/
def resizeTextures (f : VideoFrame) (m : MovieGl) : MovieGl :=
  if needsRealloc f m then
    { m with
      width := f.width, height := f.height,
      yPlane := some ⟨f.yLineSize, f.height⟩,
      uPlane := some ⟨f.uLineSize, f.height / 2⟩,
      vPlane := some ⟨f.vLineSize, f.height / 2⟩,
      fbo := some ⟨f.width, f.height⟩ }
  else m

/-- Wall-clock re-base requested by the loop-wrap branch (line 85), applied
to the timer state of the tick. -/
def rebaseTimer (r : Option ℚ) (t : Timer) (now : ℚ) : Timer :=
  match r with
  | some c => Timer.startAt c now
  | none => t

/-- Video phase of update(), lines 71-162: run the drain; if a frame was
accepted, resize the textures if needed, then render through the shader into
the offscreen target and publish its color texture; with a null shader
program the uniform upload at line 143 dereferences null.  If no frame was
accepted the output texture is left untouched. -/
def videoPhase (now currentPts : ℚ) (m : MovieGl) : Except UpdateError MovieGl :=
  let r := updateDrain currentPts m.dec
  let t2 := rebaseTimer r.rebase m.timer now
  match r.accepted with
  | some f =>
    let m2 := resizeTextures f { m with dec := r.dec, timer := t2 }
    if m.shader then
      Except.ok { m2 with texture := some ⟨f⟩ }
    else
      Except.error UpdateError.nullShaderDeref
  | none => Except.ok { m with dec := r.dec, timer := t2 }

/-- MovieGl::update (lines 42-163): no-op when the decoder never
initialized; otherwise the audio phase followed by the video phase. -/
def MovieGl.update (now : ℚ) (m : MovieGl) : Except UpdateError MovieGl :=
  if m.dec.initialized then
    let p := audioPhase now m
    videoPhase now p.2 p.1
  else Except.ok m

/-- MovieGl::getTexture (lines 165-168). -/
def MovieGl.getTexture (m : MovieGl) : Option OutputTexture := m.texture

/-- MovieGl::checkNewFrame (lines 170-180): false without an audio renderer;
false when the decoder never initialized; otherwise true iff the decoder
video clock is strictly below the renderer's consumed position. -/
def MovieGl.checkNewFrame (m : MovieGl) : Bool :=
  match m.audio with
  | none => false
  | some a =>
    if m.dec.initialized then decide (m.dec.videoClock < a.currentPts) else false

/-- MovieGl::getCurrentTime (lines 182-185). -/
def MovieGl.getCurrentTime (m : MovieGl) : ℚ := m.dec.videoClock

/-- MovieGl::play (lines 207-219): start the decoder, snapshot frame
dimensions and duration, start the wall clock at zero. -/
def MovieGl.play (now : ℚ) (m : MovieGl) : MovieGl :=
  if m.dec.initialized then
    { m with
      dec := m.dec.start,
      width := m.dec.frameWidth, height := m.dec.frameHeight,
      duration := m.dec.duration,
      timer := Timer.startAt 0 now }
  else m

/-- MovieGl::stop (lines 221-233). -/
def MovieGl.stop (now : ℚ) (m : MovieGl) : MovieGl :=
  if m.dec.initialized then
    { m with
      dec := m.dec.stop,
      audio := m.audio.map AudioRenderer.stop,
      timer := m.timer.stopAt now }
  else m

/-- MovieGl::pause (lines 235-247). -/
def MovieGl.pause (now : ℚ) (m : MovieGl) : MovieGl :=
  if m.dec.initialized then
    { m with
      dec := m.dec.pause,
      audio := m.audio.map AudioRenderer.pause,
      timer := m.timer.stopAt now }
  else m

/-- MovieGl::resume (lines 249-261): resume decoder and audio, re-base the
wall clock to the decoder's video clock. -/
def MovieGl.resume (now : ℚ) (m : MovieGl) : MovieGl :=
  if m.dec.initialized then
    let d2 := m.dec.resume
    { m with
      dec := d2,
      audio := m.audio.map AudioRenderer.play,
      timer := Timer.startAt d2.videoClock now }
  else m

/-- MovieGl::seekToTime (lines 263-279): clear the audio buffers, seek the
decoder, re-base the wall clock to the target time, resume audio playback,
and reset the output texture. -/
def MovieGl.seekToTime (t now : ℚ) (m : MovieGl) : MovieGl :=
  if m.dec.initialized then
    let audio1 := m.audio.map AudioRenderer.clearBuffers
    let d2 := MovieDecoder.seekToTime t m.dec
    let t2 := Timer.startAt t now
    let audio2 := audio1.map AudioRenderer.play
    { m with audio := audio2, dec := d2, timer := t2, texture := none }
  else m

/-- MovieGl::setLoop (lines 281-287). -/
def MovieGl.setLoop (b : Bool) (m : MovieGl) : MovieGl :=
  if m.dec.initialized then { m with dec := m.dec.setLoopFlag b } else m

/-- The audio path's consumed-playback position, present exactly when an
audio renderer exists. -/
def audioConsumedPos (m : MovieGl) : Option ℚ :=
  m.audio.map AudioRenderer.currentPts

/-- The frame a given tick accepts: the drain result of update() on the
post-audio-phase state (none when the decoder never initialized). -/
def tickAccepted (now : ℚ) (m : MovieGl) : Option VideoFrame :=
  if m.dec.initialized then
    (updateDrain (audioPhase now m).2 (audioPhase now m).1.dec).accepted
  else none

/-- Conversion matrix and bias of the fragment program, lines 327-329: each
channel is a dot product of the pre-biased (Y, U, V) sample with a constant
row, minus 0.5; the decimal shader constants 1.164, 1.596, 0.391, 0.813,
2.018 and 0.5 are written as exact fractions. -/
def yuvMatrix (y u v : ℚ) : ℚ × ℚ × ℚ :=
  (1164 / 1000 * y + 0 * u + 1596 / 1000 * v - 1 / 2,
   1164 / 1000 * y - 391 / 1000 * u - 813 / 1000 * v - 1 / 2,
   1164 / 1000 * y + 2018 / 1000 * u + 0 * v - 1 / 2)

/-- Fragment program of initializeShader, lines 320-334: bias the samples
(Y by 16/256 plus brightness, U and V by 128/256), apply the matrix, then
per channel multiply by contrast, add 0.5, and raise to the gamma power.
Gamma is modelled as a natural exponent: the program only ever supplies the
value 1 (line 147), at which the power is iterated multiplication. -/
def fragmentShader (brightness contrast : ℚ) (gamma : ℕ × ℕ × ℕ)
    (yS uS vS : ℚ) : ℚ × ℚ × ℚ :=
  let y := yS - 16 / 256 + brightness
  let u := uS - 128 / 256
  let v := vS - 128 / 256
  let c := yuvMatrix y u v
  ((c.1 * contrast + 1 / 2) ^ gamma.1,
   (c.2.1 * contrast + 1 / 2) ^ gamma.2.1,
   (c.2.2 * contrast + 1 / 2) ^ gamma.2.2)

/-- Per-pixel law of the render pass as update() invokes it, with the
uniforms of lines 146-148: brightness 0, contrast 1, gamma (1, 1, 1). -/
def renderedPixel (yS uS vS : ℚ) : ℚ × ℚ × ℚ :=
  fragmentShader 0 1 (1, 1, 1) yS uS vS

/-- The drain loop never grows the pending video queue. -/
lemma videoDrainLoop_len_le (p fd : ℚ) :
    ∀ (fuel : ℕ) (s : DrainState),
      (videoDrainLoop p fd fuel s).dec.videoQueue.length ≤ s.dec.videoQueue.length := by
  intro fuel
  induction fuel with
  | zero => intro s; simp [videoDrainLoop]
  | succ n ih =>
    intro s
    rcases hq : s.dec.videoQueue with _ | ⟨f, rest⟩
    · simp [videoDrainLoop, MovieDecoder.decodeVideoFrame, hq]
    · simp only [videoDrainLoop, MovieDecoder.decodeVideoFrame, hq]
      split
      · split
        · simp [hq]
        · apply le_trans (ih _)
          simp [hq]
      · simp [hq]

/-- Each unit of fuel lets the drain loop pull at most one frame. -/
lemma videoDrainLoop_len_lower (p fd : ℚ) :
    ∀ (fuel : ℕ) (s : DrainState),
      s.dec.videoQueue.length ≤ (videoDrainLoop p fd fuel s).dec.videoQueue.length + fuel := by
  intro fuel
  induction fuel with
  | zero => intro s; simp [videoDrainLoop]
  | succ n ih =>
    intro s
    rcases hq : s.dec.videoQueue with _ | ⟨f, rest⟩
    · simp [videoDrainLoop, MovieDecoder.decodeVideoFrame, hq]
    · simp only [videoDrainLoop, MovieDecoder.decodeVideoFrame, hq]
      split
      · split
        · simp [hq]
        · refine le_trans ?_ (Nat.add_le_add_right (ih _) 1)
          simp [hq]
      · simp [hq]

/-- The drain loop runs its body at most `fuel` times. -/
lemma videoDrainLoop_iters_le (p fd : ℚ) :
    ∀ (fuel : ℕ) (s : DrainState),
      (videoDrainLoop p fd fuel s).iters ≤ s.iters + fuel := by
  intro fuel
  induction fuel with
  | zero => intro s; simp [videoDrainLoop]
  | succ n ih =>
    intro s
    rcases hq : s.dec.videoQueue with _ | ⟨f, rest⟩
    · simp [videoDrainLoop, MovieDecoder.decodeVideoFrame, hq]
    · simp only [videoDrainLoop, MovieDecoder.decodeVideoFrame, hq]
      split
      · split
        · simp
        · refine le_trans (ih _) ?_
          simp
          omega
      · omega

/-- When the admission condition fails, the drain loop stops at once. -/
lemma videoDrainLoop_not_admitted (p fd : ℚ) (fuel : ℕ) (s : DrainState)
    (h : ¬ s.dec.videoClock < p + admitBias s.accepted fd) :
    videoDrainLoop p fd fuel s = s := by
  cases fuel with
  | zero => rfl
  | succ n => simp only [videoDrainLoop, if_neg h]

/-- Frame at a given timestamp, with the 640 x 480 geometry and the strides
of the spec's plane-sizing example. -/
def exFrame (p : ℚ) : VideoFrame := ⟨p, 640, 480, 644, 322, 322⟩

/-- Concrete decoder state used to instantiate the theorems. -/
def exDecoder (clock : ℚ) (q : List VideoFrame) : MovieDecoder :=
  { initialized := true, hasAudioStream := false, audioFrames := 0,
    videoQueue := q, videoClock := clock, fps := 30, playing := true,
    done := false, frameWidth := 640, frameHeight := 480, duration := 10,
    numFrames := 300, looping := false }

/-- Concrete running timer used to instantiate the theorems. -/
def exTimer : Timer := { running := true, offset := 0, startWall := 0, frozen := 0 }

/-- Claim C1: in the video drain loop of update(), with a frame pending at
the decoder and fuel left under the 100-iteration cap, a frame is pulled
exactly when the decoder's reported video timestamp is strictly below the
clock value plus the admission bias; the bias is half the frame duration
while no frame has been accepted this tick and zero once one has. -/
theorem admission_pull_iff (currentPts frameDuration : ℚ) (fuel : ℕ) (s : DrainState)
    (f : VideoFrame) (rest : List VideoFrame)
    (hfuel : 0 < fuel) (hq : s.dec.videoQueue = f :: rest) :
    ((videoDrainLoop currentPts frameDuration fuel s).dec.videoQueue.length
        < s.dec.videoQueue.length
      ↔ s.dec.videoClock < currentPts + admitBias s.accepted frameDuration)
    ∧ admitBias none frameDuration = frameDuration * (1 / 2)
    ∧ admitBias (some f) frameDuration = 0 := by
  refine ⟨⟨?_, ?_⟩, rfl, rfl⟩
  · intro h
    by_contra hc
    rw [videoDrainLoop_not_admitted currentPts frameDuration fuel s hc] at h
    exact lt_irrefl _ h
  · intro h
    cases fuel with
    | zero => exact absurd hfuel (lt_irrefl 0)
    | succ n =>
      simp only [videoDrainLoop, MovieDecoder.decodeVideoFrame, hq, if_pos h]
      split
      · simp [hq]
      · apply lt_of_le_of_lt (videoDrainLoop_len_le _ _ _ _)
        simp [hq]

/-- Witness for C1 at the spec's half-frame example: clock value 1, frame
duration 1/30, a single pending frame timestamped 1.016 = 127/125, no frame
accepted yet. -/
theorem admission_pull_iff_witness :
    (0 < 100 ∧ (initDrainState (exDecoder (127 / 125) [exFrame (127 / 125)])).dec.videoQueue
        = exFrame (127 / 125) :: [])
    ∧ (((videoDrainLoop 1 (1 / 30) 100
          (initDrainState (exDecoder (127 / 125) [exFrame (127 / 125)]))).dec.videoQueue.length
        < (initDrainState (exDecoder (127 / 125) [exFrame (127 / 125)])).dec.videoQueue.length
      ↔ (initDrainState (exDecoder (127 / 125) [exFrame (127 / 125)])).dec.videoClock
          < 1 + admitBias (initDrainState
              (exDecoder (127 / 125) [exFrame (127 / 125)])).accepted (1 / 30))
      ∧ admitBias none (1 / 30) = (1 / 30) * (1 / 2)
      ∧ admitBias (some (exFrame (127 / 125))) (1 / 30) = 0) :=
  ⟨⟨by decide, rfl⟩,
   admission_pull_iff 1 (1 / 30) 100 (initDrainState (exDecoder (127 / 125) [exFrame (127 / 125)]))
     (exFrame (127 / 125)) [] (by decide) rfl⟩

/-- Claim C2: a decoded frame whose timestamp is strictly below the
previously observed video timestamp makes the drain loop re-base the wall
clock to that lower timestamp and stop at once — the resulting state is
independent of the remaining fuel and of the rest of the queue, and that
frame stays the accepted frame of the tick. -/
theorem loop_wrap_rebase (currentPts frameDuration : ℚ) (fuel : ℕ) (s : DrainState)
    (f : VideoFrame) (rest : List VideoFrame)
    (hq : s.dec.videoQueue = f :: rest)
    (hbelow : s.dec.videoClock < currentPts + admitBias s.accepted frameDuration)
    (hwrap : f.pts < s.currentVideoClock) :
    videoDrainLoop currentPts frameDuration (fuel + 1) s =
      { dec := { s.dec with videoQueue := rest, videoClock := f.pts },
        accepted := some f, currentVideoClock := s.currentVideoClock,
        rebase := some f.pts,
        skips := if s.accepted.isSome then s.skips + 1 else s.skips,
        iters := s.iters + 1 }
    ∧ ∀ (t : Timer) (now : ℚ),
        rebaseTimer (videoDrainLoop currentPts frameDuration (fuel + 1) s).rebase t now
          = Timer.startAt f.pts now := by
  have hmain : videoDrainLoop currentPts frameDuration (fuel + 1) s =
      { dec := { s.dec with videoQueue := rest, videoClock := f.pts },
        accepted := some f, currentVideoClock := s.currentVideoClock,
        rebase := some f.pts,
        skips := if s.accepted.isSome then s.skips + 1 else s.skips,
        iters := s.iters + 1 } := by
    simp only [videoDrainLoop, MovieDecoder.decodeVideoFrame, hq, if_pos hbelow]
    rw [if_pos (show s.currentVideoClock > f.pts from hwrap)]
  refine ⟨hmain, fun t now => ?_⟩
  rw [hmain]
  rfl

/-- Concrete drain state for the spec's loop re-base vector: frames at 9.8
and 9.9 already consumed, frames at 0.05 = 1/20 and 0.1 = 1/10 pending. -/
def exWrapState : DrainState :=
  { dec := exDecoder (99 / 10) [exFrame (1 / 20), exFrame (1 / 10)],
    accepted := some (exFrame (99 / 10)), currentVideoClock := 99 / 10,
    rebase := none, skips := 0, iters := 2 }

/-- Witness for C2 at the spec's loop re-base vector: with clock value
9.95 = 199/20, the frame timestamped 1/20 wraps, and the wall clock
re-bases to 1/20. -/
theorem loop_wrap_rebase_witness :
    (exWrapState.dec.videoQueue = exFrame (1 / 20) :: [exFrame (1 / 10)]
      ∧ exWrapState.dec.videoClock < 199 / 20 + admitBias exWrapState.accepted (1 / 30)
      ∧ (exFrame (1 / 20)).pts < exWrapState.currentVideoClock)
    ∧ rebaseTimer (videoDrainLoop (199 / 20) (1 / 30) (99 + 1) exWrapState).rebase exTimer 20
        = Timer.startAt (exFrame (1 / 20)).pts 20 :=
  ⟨⟨rfl, by norm_num [exWrapState, exDecoder, exFrame, admitBias],
    by norm_num [exWrapState, exDecoder, exFrame]⟩,
   (loop_wrap_rebase (199 / 20) (1 / 30) 99 exWrapState (exFrame (1 / 20)) [exFrame (1 / 10)]
     rfl (by norm_num [exWrapState, exDecoder, exFrame, admitBias])
     (by norm_num [exWrapState, exDecoder, exFrame])).2 exTimer 20⟩

/-- Claim C3: the video drain of one update() tick runs its loop body at
most 100 times, and hence pulls (accepts or skips) at most 100 frames, for
every decoder state and clock value — including a decoder that always
reports a timestamp below the admission threshold. -/
theorem drain_bounded (currentPts : ℚ) (d : MovieDecoder) :
    (updateDrain currentPts d).iters ≤ 100
    ∧ d.videoQueue.length ≤ (updateDrain currentPts d).dec.videoQueue.length + 100 := by
  constructor
  · have h := videoDrainLoop_iters_le currentPts (1 / d.fps) 100 (initDrainState d)
    simpa [updateDrain, initDrainState] using h
  · have h := videoDrainLoop_len_lower currentPts (1 / d.fps) 100 (initDrainState d)
    simpa [updateDrain, initDrainState] using h

/-- Claim C4: on an accepted frame, the three plane textures are recreated
at (yLineSize x height), (uLineSize x height/2), (vLineSize x height/2) and
the offscreen target at (width x height), all as a unit, exactly when one of
them is absent or the frame's width or height differs from the cached
dimensions; a frame with the cached width and height changes nothing, so a
stride-only change is not a resize trigger. -/
theorem plane_texture_sizing (f : VideoFrame) (m : MovieGl) :
    (needsRealloc f m = true →
      resizeTextures f m =
        { m with
          width := f.width, height := f.height,
          yPlane := some ⟨f.yLineSize, f.height⟩,
          uPlane := some ⟨f.uLineSize, f.height / 2⟩,
          vPlane := some ⟨f.vLineSize, f.height / 2⟩,
          fbo := some ⟨f.width, f.height⟩ })
    ∧ (needsRealloc f m = false → resizeTextures f m = m)
    ∧ (needsRealloc f m = true ↔
        m.yPlane = none ∨ m.uPlane = none ∨ m.vPlane = none ∨ m.fbo = none
          ∨ f.height ≠ m.height ∨ f.width ≠ m.width) := by
  refine ⟨fun h => ?_, fun h => ?_, ?_⟩
  · simp [resizeTextures, h]
  · simp [resizeTextures, h]
  · simp [needsRealloc, Option.isNone_iff_eq_none]
    tauto

/-- MovieGl state whose cached textures already match the 640 x 480 example
frame geometry. -/
def exCachedMovie : MovieGl :=
  { dec := exDecoder 0 [], audio := none, timer := exTimer,
    width := 640, height := 480, duration := 10,
    yPlane := some ⟨644, 480⟩, uPlane := some ⟨322, 240⟩, vPlane := some ⟨322, 240⟩,
    fbo := some ⟨640, 480⟩, texture := none, shader := true }

/-- Witness for C4 at the spec's plane-sizing example: re-supplying a frame
with the cached 640 x 480 dimensions triggers no reallocation. -/
theorem plane_texture_sizing_witness :
    needsRealloc (exFrame 2) exCachedMovie = false
      ∧ resizeTextures (exFrame 2) exCachedMovie = exCachedMovie :=
  ⟨rfl, (plane_texture_sizing (exFrame 2) exCachedMovie).2.1 rfl⟩

/-- Claim C7: for an initialized movie, checkNewFrame() returns true iff
the audio path exists and its consumed-playback position strictly exceeds
the decoder video clock; in particular, without an audio path no consumed
position exists and the result is false. -/
theorem check_new_frame_iff (m : MovieGl) (hinit : m.dec.initialized = true) :
    MovieGl.checkNewFrame m = true ↔
      ∃ p, audioConsumedPos m = some p ∧ m.dec.videoClock < p := by
  cases ha : m.audio with
  | none => simp [MovieGl.checkNewFrame, audioConsumedPos, ha]
  | some a => simp [MovieGl.checkNewFrame, audioConsumedPos, ha, hinit]

/-- Audio renderer state at a given consumed position. -/
def exAudio (pts : ℚ) : AudioRenderer :=
  { cap := 4, buffered := 0, currentPts := pts, playing := true }

/-- Initialized movie with an audio path whose consumed position is ahead
of the video clock. -/
def exAudioMovie : MovieGl :=
  { dec := exDecoder 1 [], audio := some (exAudio 2), timer := exTimer,
    width := 640, height := 480, duration := 10,
    yPlane := none, uPlane := none, vPlane := none,
    fbo := none, texture := none, shader := true }

/-- Witness for C7 on a concrete initialized movie with an audio path. -/
theorem check_new_frame_iff_witness :
    exAudioMovie.dec.initialized = true
      ∧ (MovieGl.checkNewFrame exAudioMovie = true ↔
          ∃ p, audioConsumedPos exAudioMovie = some p ∧ exAudioMovie.dec.videoClock < p) :=
  ⟨rfl, check_new_frame_iff exAudioMovie rfl⟩

/-- Claim C10: with the uniforms update() fixes at lines 146-148
(brightness 0, contrast 1, gamma (1,1,1)) the per-pixel law reduces to the
base matrix on the pre-biased samples; at the uniform neutral frame
Y = 235, U = V = 128 (samples 235/256 and 128/256, post-bias 219/256 and 0)
each channel equals 63729/64000, within 0.001 of 0.995, and the
pre-contrast matrix value is 31729/64000, within 0.001 of 0.495. -/
theorem neutral_color_conversion :
    (∀ y u v : ℚ, renderedPixel y u v =
      (1164 / 1000 * (y - 16 / 256) + 1596 / 1000 * (v - 128 / 256),
       1164 / 1000 * (y - 16 / 256) - 391 / 1000 * (u - 128 / 256)
         - 813 / 1000 * (v - 128 / 256),
       1164 / 1000 * (y - 16 / 256) + 2018 / 1000 * (u - 128 / 256)))
    ∧ renderedPixel (235 / 256) (128 / 256) (128 / 256)
        = (63729 / 64000, 63729 / 64000, 63729 / 64000)
    ∧ (994 / 1000 < (63729 : ℚ) / 64000 ∧ (63729 : ℚ) / 64000 < 996 / 1000)
    ∧ (yuvMatrix (235 / 256 - 16 / 256) 0 0).1 = 31729 / 64000
    ∧ (494 / 1000 < (31729 : ℚ) / 64000 ∧ (31729 : ℚ) / 64000 < 496 / 1000) := by
  refine ⟨fun y u v => ?_, ?_, ?_, ?_, ?_⟩
  · simp only [renderedPixel, fragmentShader, yuvMatrix, pow_one, Prod.mk.injEq]
    refine ⟨by ring, by ring, by ring⟩
  · simp only [renderedPixel, fragmentShader, yuvMatrix, pow_one, Prod.mk.injEq]
    norm_num
  · norm_num
  · simp only [yuvMatrix]
    norm_num
  · norm_num

/-- The drain loop is the identity when no video frame is pending. -/
lemma videoDrainLoop_nil (p fd : ℚ) (fuel : ℕ) (s : DrainState)
    (hq : s.dec.videoQueue = []) :
    videoDrainLoop p fd fuel s = s := by
  cases fuel with
  | zero => rfl
  | succ n =>
    simp only [videoDrainLoop, MovieDecoder.decodeVideoFrame, hq]
    split <;> rfl

/-- One accept-and-continue step of the drain loop. -/
lemma videoDrainLoop_step (p fd : ℚ) (fuel : ℕ) (s : DrainState)
    (f : VideoFrame) (rest : List VideoFrame)
    (hq : s.dec.videoQueue = f :: rest)
    (hbelow : s.dec.videoClock < p + admitBias s.accepted fd)
    (hnowrap : ¬ f.pts < s.currentVideoClock) :
    videoDrainLoop p fd (fuel + 1) s =
      videoDrainLoop p fd fuel
        { dec := { s.dec with videoQueue := rest, videoClock := f.pts },
          accepted := some f, currentVideoClock := f.pts,
          rebase := s.rebase,
          skips := if s.accepted.isSome then s.skips + 1 else s.skips,
          iters := s.iters + 1 } := by
  simp only [videoDrainLoop, MovieDecoder.decodeVideoFrame, hq, if_pos hbelow]
  rw [if_neg (show ¬ s.currentVideoClock > f.pts from hnowrap)]

/-- The audio phase with no audio renderer and no audio stream is the
identity, with currentPts read from the wall clock. -/
lemma audioPhase_silent (now : ℚ) (m : MovieGl)
    (ha : m.audio = none) (hs : m.dec.hasAudioStream = false) :
    audioPhase now m = (m, m.timer.getSeconds now) := by
  simp [audioPhase, ha, hs]
  rw [← ha]

/-- The audio phase never touches the output texture, the timer or the
shader flag. -/
lemma audioPhase_fields (now : ℚ) (m : MovieGl) :
    (audioPhase now m).1.texture = m.texture
    ∧ (audioPhase now m).1.timer = m.timer
    ∧ (audioPhase now m).1.shader = m.shader := by
  cases ha : m.audio <;> simp [audioPhase, ha]

/-- The video phase on a tick that accepts no frame only advances the
decoder and applies any pending timer re-base. -/
lemma videoPhase_no_accept (now pts : ℚ) (m : MovieGl)
    (hacc : (updateDrain pts m.dec).accepted = none) :
    videoPhase now pts m =
      Except.ok { m with
        dec := (updateDrain pts m.dec).dec,
        timer := rebaseTimer (updateDrain pts m.dec).rebase m.timer now } := by
  simp only [videoPhase, hacc]

/-- The discard loop empties exactly the pending audio frames. -/
lemma discardAudio_count :
    ∀ (n : ℕ) (d : MovieDecoder), d.audioFrames = n →
      discardAudio n d = { d with audioFrames := 0 } := by
  intro n
  induction n with
  | zero =>
    intro d h
    have he : { d with audioFrames := 0 } = d := by rw [← h]
    rw [he]
    rfl
  | succ k ih =>
    intro d h
    simp only [discardAudio, MovieDecoder.decodeAudioFrame, h]
    exact ih { d with audioFrames := k } rfl

/-- How a successful tick treats the output texture: untouched when no
frame is accepted, overwritten with the render of the accepted frame
otherwise. -/
lemma update_texture_cases (now : ℚ) (m m2 : MovieGl)
    (h : MovieGl.update now m = Except.ok m2) :
    (tickAccepted now m = none → m2.texture = m.texture)
    ∧ ∀ f, tickAccepted now m = some f → m2.texture = some ⟨f⟩ := by
  unfold MovieGl.update at h
  unfold tickAccepted
  cases hinit : m.dec.initialized with
  | false =>
    simp only [hinit, Bool.false_eq_true, if_false, Except.ok.injEq] at h
    subst h
    simp
  | true =>
    simp only [hinit, if_true] at h
    simp only [hinit, if_true]
    unfold videoPhase at h
    cases hacc : (updateDrain (audioPhase now m).2 (audioPhase now m).1.dec).accepted with
    | none =>
      simp only [hacc, Except.ok.injEq] at h
      subst h
      simp [(audioPhase_fields now m).1]
    | some f =>
      simp only [hacc] at h
      cases hsh : (audioPhase now m).1.shader with
      | false =>
        simp only [hsh, Bool.false_eq_true, if_false] at h
        exact Except.noConfusion h
      | true =>
        simp only [hsh, if_true, Except.ok.injEq] at h
        subst h
        simp only [hacc]
        refine ⟨fun hn => by simp at hn, fun g hg => ?_⟩
        cases hg
        rfl

/-- Claim C5: for an initialized movie, seekToTime(t) clears the audio
path's buffers and resumes its playback when an audio path exists, seeks
the decoder to t, re-bases the wall clock to t, and sets the output texture
to absent, so getTexture() stays absent through any subsequent tick that
accepts no video frame. -/
theorem seek_clears_output (t now : ℚ) (m : MovieGl)
    (hinit : m.dec.initialized = true) :
    (MovieGl.seekToTime t now m).texture = none
    ∧ MovieGl.getTexture (MovieGl.seekToTime t now m) = none
    ∧ (MovieGl.seekToTime t now m).timer = Timer.startAt t now
    ∧ (MovieGl.seekToTime t now m).dec = MovieDecoder.seekToTime t m.dec
    ∧ (∀ a, m.audio = some a →
        (MovieGl.seekToTime t now m).audio = some { a with buffered := 0, playing := true })
    ∧ (m.audio = none → (MovieGl.seekToTime t now m).audio = none)
    ∧ ∀ now2 m2, MovieGl.update now2 (MovieGl.seekToTime t now m) = Except.ok m2 →
        tickAccepted now2 (MovieGl.seekToTime t now m) = none → m2.texture = none := by
  refine ⟨?_, ?_, ?_, ?_, fun a ha => ?_, fun ha => ?_, fun now2 m2 h hacc => ?_⟩
  · simp [MovieGl.seekToTime, hinit]
  · simp [MovieGl.getTexture, MovieGl.seekToTime, hinit]
  · simp [MovieGl.seekToTime, hinit]
  · simp [MovieGl.seekToTime, hinit]
  · simp [MovieGl.seekToTime, hinit, ha, AudioRenderer.clearBuffers, AudioRenderer.play]
  · simp [MovieGl.seekToTime, hinit, ha]
  · rw [(update_texture_cases now2 _ m2 h).1 hacc]
    simp [MovieGl.seekToTime, hinit]

/-- Witness for C5 on the concrete initialized movie with an audio path. -/
theorem seek_clears_output_witness :
    exAudioMovie.dec.initialized = true
    ∧ (MovieGl.seekToTime 3 7 exAudioMovie).texture = none
    ∧ (MovieGl.seekToTime 3 7 exAudioMovie).timer = Timer.startAt 3 7 :=
  ⟨rfl, (seek_clears_output 3 7 exAudioMovie rfl).1,
   (seek_clears_output 3 7 exAudioMovie rfl).2.2.1⟩

/-- Claim C6: the output texture is changed only by a tick that accepts a
frame, which overwrites it with the render of that frame; play, stop,
pause, resume and setLoop leave it unchanged, and a successful tick that
accepts no frame leaves it unchanged — so it stays absent until the first
decoded and rendered frame. -/
theorem output_texture_invariance (now : ℚ) (b : Bool) (m : MovieGl) :
    (MovieGl.play now m).texture = m.texture
    ∧ (MovieGl.stop now m).texture = m.texture
    ∧ (MovieGl.pause now m).texture = m.texture
    ∧ (MovieGl.resume now m).texture = m.texture
    ∧ (MovieGl.setLoop b m).texture = m.texture
    ∧ ∀ m2, MovieGl.update now m = Except.ok m2 →
        (tickAccepted now m = none → m2.texture = m.texture)
        ∧ ∀ f, tickAccepted now m = some f → m2.texture = some ⟨f⟩ := by
  refine ⟨?_, ?_, ?_, ?_, ?_, fun m2 h => update_texture_cases now m m2 h⟩
  · unfold MovieGl.play
    split <;> rfl
  · unfold MovieGl.stop
    split <;> rfl
  · unfold MovieGl.pause
    split <;> rfl
  · unfold MovieGl.resume
    split <;> rfl
  · unfold MovieGl.setLoop
    split <;> rfl

/-- The drain of a tick on the cached example movie (empty video queue)
accepts nothing. -/
lemma drain_exCachedMovie :
    updateDrain (exCachedMovie.timer.getSeconds 5) exCachedMovie.dec
      = initDrainState exCachedMovie.dec :=
  videoDrainLoop_nil _ _ _ _ rfl

/-- A tick on the cached example movie returns the state unchanged. -/
lemma update_exCachedMovie : MovieGl.update 5 exCachedMovie = Except.ok exCachedMovie := by
  unfold MovieGl.update
  rw [if_pos (show exCachedMovie.dec.initialized = true from rfl)]
  rw [audioPhase_silent 5 exCachedMovie rfl rfl]
  show videoPhase 5 (exCachedMovie.timer.getSeconds 5) exCachedMovie = Except.ok exCachedMovie
  rw [videoPhase_no_accept _ _ _ (by rw [drain_exCachedMovie]; rfl)]
  rw [drain_exCachedMovie]
  rfl

/-- A tick on the cached example movie accepts no frame. -/
lemma tickAccepted_exCachedMovie : tickAccepted 5 exCachedMovie = none := by
  unfold tickAccepted
  rw [if_pos (show exCachedMovie.dec.initialized = true from rfl)]
  rw [audioPhase_silent 5 exCachedMovie rfl rfl]
  show (updateDrain (exCachedMovie.timer.getSeconds 5) exCachedMovie.dec).accepted = none
  rw [drain_exCachedMovie]
  rfl

/-- Witness for C6: a concrete successful tick with no accepted frame keeps
the output texture unchanged. -/
theorem output_texture_invariance_witness :
    MovieGl.update 5 exCachedMovie = Except.ok exCachedMovie
    ∧ tickAccepted 5 exCachedMovie = none
    ∧ exCachedMovie.texture = exCachedMovie.texture :=
  ⟨update_exCachedMovie, tickAccepted_exCachedMovie,
   ((output_texture_invariance 5 false exCachedMovie).2.2.2.2.2 exCachedMovie
       update_exCachedMovie).1 tickAccepted_exCachedMovie⟩

/-- Claim C9: with no audio renderer but an audio stream present, the audio
phase of a tick pulls and discards every pending audio frame, paces video
by the wall-clock timer's seconds, and raises nothing — update() proceeds
into the video phase on that wall-clock value. -/
theorem no_audio_fallback (now : ℚ) (m : MovieGl)
    (ha : m.audio = none) (hs : m.dec.hasAudioStream = true) :
    audioPhase now m
      = ({ m with dec := { m.dec with audioFrames := 0 } }, m.timer.getSeconds now)
    ∧ (m.dec.initialized = true →
        MovieGl.update now m
          = videoPhase now (m.timer.getSeconds now)
              { m with dec := { m.dec with audioFrames := 0 } }) := by
  have h1 : audioPhase now m
      = ({ m with dec := { m.dec with audioFrames := 0 } }, m.timer.getSeconds now) := by
    simp only [audioPhase, ha, hs, if_true]
    rw [discardAudio_count m.dec.audioFrames m.dec rfl, hs]
  refine ⟨h1, fun hinit => ?_⟩
  unfold MovieGl.update
  rw [if_pos hinit, h1]

/-- Movie with pending audio frames in the stream but no audio renderer. -/
def exSilentMovie : MovieGl :=
  { dec := { exDecoder 0 [] with hasAudioStream := true, audioFrames := 3 },
    audio := none, timer := exTimer, width := 0, height := 0, duration := 10,
    yPlane := none, uPlane := none, vPlane := none, fbo := none,
    texture := none, shader := true }

/-- Witness for C9 on the concrete audio-stream movie: three pending audio
frames are discarded and the tick paces by the wall clock. -/
theorem no_audio_fallback_witness :
    (exSilentMovie.audio = none ∧ exSilentMovie.dec.hasAudioStream = true)
    ∧ audioPhase 4 exSilentMovie
        = ({ exSilentMovie with dec := { exSilentMovie.dec with audioFrames := 0 } },
           exSilentMovie.timer.getSeconds 4) :=
  ⟨⟨rfl, rfl⟩, (no_audio_fallback 4 exSilentMovie rfl rfl).1⟩

/-- Movie whose color-conversion shader failed to compile (mShader null)
and whose decoder has a video frame pending far behind the clock. -/
def exShaderFailMovie : MovieGl :=
  { dec := exDecoder 0 [exFrame (1 / 10)], audio := none,
    timer := { running := false, offset := 0, startWall := 0, frozen := 10 },
    width := 0, height := 0, duration := 10,
    yPlane := none, uPlane := none, vPlane := none, fbo := none,
    texture := none, shader := false }

/-- The drain of a tick on the shader-failed movie accepts its single
pending frame. -/
lemma drain_exShaderFailMovie :
    updateDrain (exShaderFailMovie.timer.getSeconds 0) exShaderFailMovie.dec
      = { dec := { exShaderFailMovie.dec with videoQueue := [], videoClock := 1 / 10 },
          accepted := some (exFrame (1 / 10)), currentVideoClock := 1 / 10,
          rebase := none, skips := 0, iters := 1 } := by
  unfold updateDrain
  rw [show (100 : ℕ) = 99 + 1 from rfl]
  rw [videoDrainLoop_step _ _ 99 _ (exFrame (1 / 10)) [] rfl
    (by norm_num [initDrainState, exShaderFailMovie, exDecoder, exFrame, admitBias,
      Timer.getSeconds])
    (by norm_num [initDrainState, exShaderFailMovie, exDecoder, exFrame])]
  rw [videoDrainLoop_nil _ _ _ _ rfl]
  rfl

/-- Claim C8 (recording the code bug): with the shader program null after a
failed compilation, a tick that accepts a video frame dereferences the null
program at the uniform upload of line 143 instead of completing in the
degraded mode the spec describes. -/
theorem null_shader_update_crash :
    MovieGl.update 0 exShaderFailMovie = Except.error UpdateError.nullShaderDeref
    ∧ tickAccepted 0 exShaderFailMovie = some (exFrame (1 / 10)) := by
  constructor
  · unfold MovieGl.update
    rw [if_pos (show exShaderFailMovie.dec.initialized = true from rfl)]
    rw [audioPhase_silent 0 exShaderFailMovie rfl rfl]
    show videoPhase 0 (exShaderFailMovie.timer.getSeconds 0) exShaderFailMovie
        = Except.error UpdateError.nullShaderDeref
    unfold videoPhase
    rw [drain_exShaderFailMovie]
    rfl
  · unfold tickAccepted
    rw [if_pos (show exShaderFailMovie.dec.initialized = true from rfl)]
    rw [audioPhase_silent 0 exShaderFailMovie rfl rfl]
    show (updateDrain (exShaderFailMovie.timer.getSeconds 0) exShaderFailMovie.dec).accepted
        = some (exFrame (1 / 10))
    rw [drain_exShaderFailMovie]

end CinderFFmpeg
